import Mathlib

/-
Verification of the article-checker pipeline
(tools/article_checker/article_checker_claude.py).

The Python source is shallowly embedded below.  Strings are modelled as
Lean `String` / `List Char`, Python `re` searches used by the source are
implemented by a small backtracking engine restricted to the constructs
appearing in the source's patterns, the on-disk cache is modelled as an
association list of files with modification times, and external
collaborators (the `yaml` parser, `hashlib.md5`, `remove_plus`, and the
remote LLM client) are passed as explicit function parameters.
-/

set_option maxRecDepth 4000

namespace ArticleChecker

/-! ## Python string primitives -/

/-- Python whitespace characters (`str.strip`, regex `\s`), ASCII range. -/
def pyIsSpace (c : Char) : Bool :=
  c == ' ' || c == '\t' || c == '\n' || c == '\r' || c == '\x0b' || c == '\x0c'

/-- ASCII lowering, modelling Python `str.lower` on the ASCII field names
that appear in front-matter. -/
def asciiLower (c : Char) : Char :=
  if 'A' ≤ c ∧ c ≤ 'Z' then Char.ofNat (c.toNat + 32) else c

/-- Python `str.strip()` on a character list. -/
def pyStrip (l : List Char) : List Char :=
  ((l.dropWhile pyIsSpace).reverse.dropWhile pyIsSpace).reverse

/-- Position (counted from the head of `s`) of the first occurrence of
`sub` in `s`, accumulator-style; `none` when absent. -/
def findSubAux (sub : List Char) : List Char → Nat → Option Nat
  | s, i =>
    if sub.isPrefixOf s then some i
    else
      match s with
      | [] => none
      | _ :: t => findSubAux sub t (i + 1)

/-- Python `s.find(sub, start)` restricted to the found/not-found result:
first index `≥ start` at which `sub` occurs. -/
def pyFindFrom (s sub : List Char) (start : Nat) : Option Nat :=
  (findSubAux sub (s.drop start) 0).map (fun i => i + start)

/-- Python `sub in s` (substring containment). -/
def containsSub (s sub : List Char) : Bool :=
  (findSubAux sub s 0).isSome

/-- Python `s.find(sub)` with its `-1` convention, used by
`validate_entities_section`. -/
def pyFind (s sub : List Char) : Int :=
  match findSubAux sub s 0 with
  | some i => (i : Int)
  | none => -1

/-- Python `s.split('\n')` (keeps empty pieces). -/
def splitNl : List Char → List (List Char)
  | [] => [[]]
  | '\n' :: t => [] :: splitNl t
  | c :: t =>
    match splitNl t with
    | h :: r => (c :: h) :: r
    | [] => [[c]]

/-- Python `', '.join`. -/
def joinCS : List String → String
  | [] => ""
  | [x] => x
  | x :: r => x ++ ", " ++ joinCS r

/-! ## Regex engine

The source uses `re.search` with four fixed patterns.  All of them are
sequences of: a literal (possibly case-insensitive), single-character
classes with `?`/`*`/`+`/counted repetition, one capturing group `(.+)`
or `(\d{4}-\d{2}-\d{2})`, and a MULTILINE `$`.  The engine below
implements exactly those constructs with Python's leftmost-then-greedy
backtracking semantics.  Patterns here contain at most one group. -/

/-- Single-character regex classes occurring in the source's patterns. -/
inductive RCls where
  | any                -- `.` (anything but newline)
  | digit              -- `\d` (ASCII model)
  | space              -- `\s` (ASCII model)
  | quote              -- `['"]`
  | lit (c : Char)     -- a literal character
deriving DecidableEq

def RCls.mtch : RCls → Char → Bool
  | .any, c => c ≠ '\n'
  | .digit, c => c.isDigit
  | .space, c => pyIsSpace c
  | .quote, c => c == '\x27' || c == '"'
  | .lit a, c => a == c

/-- One item of a pattern sequence. -/
inductive RItem where
  | str (ls : List Char) (ci : Bool)  -- literal run, `ci` = IGNORECASE
  | one (r : RCls)                    -- single occurrence
  | opt (r : RCls)                    -- `r?` (greedy)
  | star (r : RCls)                   -- `r*` (greedy)
  | plusGrp (r : RCls)                -- `(r+)` (greedy, capturing)
  | eolM                              -- `$` under MULTILINE
deriving DecidableEq

/-- Case-insensitive prefix test (ASCII case-folding, as in `re.IGNORECASE`
over the ASCII literals of the source's patterns). -/
def prefixCI : List Char → List Char → Bool
  | [], _ => true
  | _ :: _, [] => false
  | a :: p, c :: s => asciiLower a == asciiLower c && prefixCI p s

/-- Length of the maximal run of characters matching `r`. -/
def countWhile (r : RCls) (s : List Char) : Nat :=
  (s.takeWhile r.mtch).length

/-- Match a pattern sequence at the head of `s`; `some g` returns the
capture of the (at most one) group, `[]` when the pattern has no group.
Greedy quantifiers try the longest repetition first and backtrack, which
is Python's semantics for these patterns. -/
def matchFrom : List RItem → List Char → Option (List Char)
  | [], _ => some []
  | .str ls ci :: rest, s =>
    if ci then
      if prefixCI ls s then matchFrom rest (s.drop ls.length) else none
    else
      if ls.isPrefixOf s then matchFrom rest (s.drop ls.length) else none
  | .one r :: rest, s =>
    match s with
    | [] => none
    | c :: t => if r.mtch c then matchFrom rest t else none
  | .opt r :: rest, s =>
    match s with
    | [] => matchFrom rest []
    | c :: t =>
      if r.mtch c then
        match matchFrom rest t with
        | some g => some g
        | none => matchFrom rest s
      else matchFrom rest s
  | .star r :: rest, s =>
    let k := countWhile r s
    (List.range (k + 1)).findSome? (fun j => matchFrom rest (s.drop (k - j)))
  | .plusGrp r :: rest, s =>
    let k := countWhile r s
    (List.range k).findSome? (fun j =>
      match matchFrom rest (s.drop (k - j)) with
      | some _ => some (s.take (k - j))
      | none => none)
  | .eolM :: rest, s =>
    match s with
    | [] => matchFrom rest []
    | c :: _ => if c = '\n' then matchFrom rest s else none

/-- `re.search`: try every start position left to right (including the
position at the very end of the string). -/
def reSearch (items : List RItem) : List Char → Option (List Char)
  | [] => matchFrom items []
  | c :: t =>
    match matchFrom items (c :: t) with
    | some g => some g
    | none => reSearch items t

/-- Pattern `date:\s*(\d{4}-\d{2}-\d{2})` with `re.IGNORECASE`
(line 123 of the source; the group itself is unused there). -/
def dateRe : List RItem :=
  [.str "date:".data true, .star .space,
   .one .digit, .one .digit, .one .digit, .one .digit, .one (.lit '-'),
   .one .digit, .one .digit, .one (.lit '-'), .one .digit, .one .digit]

/-- Pattern `entities:\s*-\s*\[` (line 128 of the source). -/
def entitiesListRe : List RItem :=
  [.str "entities:".data false, .star .space, .one (.lit '-'),
   .star .space, .one (.lit '[')]

/-- Pattern `title:\s*['"]?(.+)['"]?\s*$` with `re.MULTILINE`
(line 135 of the source).  Note the greedy `(.+)` runs to the end of the
line, so a closing quote, when present, stays inside the capture. -/
def titleRe : List RItem :=
  [.str "title:".data false, .star .space, .opt .quote,
   .plusGrp .any, .opt .quote, .star .space, .eolM]

/-! ## Header validator (`validate_headers`, lines 92-172) -/

/-- Field names present in the front-matter: for each line containing a
colon, the part before the first colon, stripped and lowercased
(lines 110-115 of the source). -/
def present_fields_of (frontmatter : List Char) : List String :=
  ((splitNl frontmatter).filter (fun l => containsSub l [':'])).map
    (fun l => String.mk ((pyStrip ((pyStrip l).takeWhile (fun c => c ≠ ':'))).map asciiLower))

/-- Required fields absent from the front-matter, in the canonical order
of the source's set literal `{'date', 'entities', 'title'}`.  The actual
CPython iteration order of this set difference is hash-dependent; it is
modelled by the `setOrder` permutation parameter of `validate_headers`. -/
def missing_of (frontmatter : List Char) : List String :=
  ["date", "entities", "title"].filter
    (fun f => !((present_fields_of frontmatter).contains f))

/-- Date check of line 123: `re.search` of `dateRe` succeeds. -/
def dateSearch (frontmatter : List Char) : Bool :=
  (reSearch dateRe frontmatter).isSome

/-- Entities presence check of line 128:
`re.search(r'entities:\s*-\s*\[', fm) or re.search(r'entities:', fm)`. -/
def entitiesPresent (frontmatter : List Char) : Bool :=
  (reSearch entitiesListRe frontmatter).isSome || containsSub frontmatter "entities:".data

/-- Title extraction of line 135: the capture of `titleRe`. -/
def title_capture (frontmatter : List Char) : Option (List Char) :=
  reSearch titleRe frontmatter

/-- Truncation of the entities slice at the next top-level field
(lines 160-165 of the source): try `\ntitle:` then `\ndate:`; a position
`> 0` truncates and stops the loop. -/
def truncateEntities (entities_section : List Char) : List Char :=
  let p1 := pyFind entities_section ('\n' :: "title:".data)
  if p1 > 0 then entities_section.take p1.toNat
  else
    let p2 := pyFind entities_section ('\n' :: "date:".data)
    if p2 > 0 then entities_section.take p2.toNat
    else entities_section

/-- `validate_entities_section` (lines 148-172).  `yamlLoad` stands for
`yaml.safe_load` on the extracted slice: `Except.error e` models a raised
`yaml.YAMLError` whose `str` is `e`.  The source's final
`if data and 'entities' not in data: return` returns `None` on every
branch, so only the raise/no-raise outcome is observable.  The function
raises `ValueError(f"Invalid YAML in entities section: {e}")` exactly
when the slice exists and fails to parse. -/
def validate_entities_section (yamlLoad : String → Except String Unit)
    (frontmatter : List Char) : Except String Unit :=
  match findSubAux "entities:".data frontmatter 0 with
  | none => Except.ok ()
  | some entities_start =>
    let sec := truncateEntities (frontmatter.drop entities_start)
    match yamlLoad (String.mk sec) with
    | Except.ok _ => Except.ok ()
    | Except.error e => Except.error ("Invalid YAML in entities section: " ++ e)

/-- `validate_headers` (lines 92-145).

`setOrder` models CPython's hash-dependent iteration order of the set
`required_fields - present_fields` when the missing fields are joined
into the failure message: a run of the program corresponds to a
`setOrder` that permutes its input.  `yamlLoad` models `yaml.safe_load`
(see `validate_entities_section`); its `ValueError` is the only
exception the source's body can raise, and the enclosing
`try/except Exception` turns it into
`(False, f"Error validating headers: {str(e)}")`, inlined below at the
call site. -/
def validate_headers (setOrder : List String → List String)
    (yamlLoad : String → Except String Unit) (content : String) : Bool × String :=
  let c := content.data
  if !("---".data.isPrefixOf c) then
    (false, "Missing YAML frontmatter delimiter \x27---\x27 at start")
  else
    match pyFindFrom c "---".data 3 with
    | none => (false, "Missing closing YAML delimiter \x27---\x27")
    | some end_marker =>
      let frontmatter := (c.take end_marker).drop 3
      if missing_of frontmatter ≠ [] then
        (false, "Missing required YAML headers: " ++ joinCS (setOrder (missing_of frontmatter)))
      else if !(dateSearch frontmatter) then
        (false, "Invalid or missing \x27date\x27 header (must be YYYY-MM-DD format)")
      else if !(entitiesPresent frontmatter) then
        (false, "Missing or malformed \x27entities\x27 header")
      else
        match validate_entities_section yamlLoad frontmatter with
        | Except.error e => (false, "Error validating headers: " ++ e)
        | Except.ok _ =>
          match title_capture frontmatter with
          | none => (false, "Missing or empty \x27title\x27 header")
          | some cap =>
            let title := pyStrip cap
            if title = [] ∨ title.length < 10 then
              (false, "\x27title\x27 header must be at least 10 characters (got: "
                ++ toString title.length ++ ")")
            else
              (true, "Headers validated successfully")

/-! ## Structure validator (`validate_markdown_structure`, lines 175-207)

The only `import re` in the source file sits *inside* the body of
`validate_headers` (line 122), which makes `re` a local name of that
function.  `validate_markdown_structure` refers to the module-level
global `re` at line 196 (`re.search(r'```', body)`), and the module
never binds it, so that line raises
`NameError: name 're' is not defined` whenever it is reached — that is,
whenever `content.find('---', 3)` succeeds.  The embedding returns
`Except.error` for that uncaught exception; the issue list built before
line 196 is computed (and then lost) exactly as in the source. -/

def nameErrorRe : String := "NameError: name \x27re\x27 is not defined"

def validate_markdown_structure (content : String) : Except String (Bool × List String) :=
  let c := content.data
  match pyFindFrom c "---".data 3 with
  | none => Except.ok (false, ["Cannot find markdown body"])
  | some body_start =>
    let body := c.drop (body_start + 3)
    let required_sections := ["## Summary", "## Methodology", "## Conclusion"]
    let present_sections := required_sections.filter (fun s => containsSub body s.data)
    let missing := required_sections.filter (fun s => !(present_sections.contains s))
    let _issues : List String :=
      if missing ≠ [] then ["Missing required sections: " ++ joinCS missing] else []
    Except.error nameErrorRe

/-! ## Cache store (`cache_key`, `load_from_cache`, `save_to_cache`,
lines 58-89)

The cache directory is modelled as a list of files; the head entry for a
path is the file's current state.  `now` stands for `time.time()` and
file ages are `Int` seconds.  I/O failures (the `except` clauses of
lines 75-79 and 85-89) are not modelled: the ideal file system always
reads and writes successfully.  `md5hex` stands for
`hashlib.md5(...).hexdigest()`, an external library call. -/

structure FileEntry where
  path : String
  mtime : Int
  content : String
deriving DecidableEq, Repr

abbrev CacheFS := List FileEntry

def fsLookup (fs : CacheFS) (p : String) : Option (Int × String) :=
  match fs.find? (fun f => f.path == p) with
  | some f => some (f.mtime, f.content)
  | none => none

def fsRemove (fs : CacheFS) (p : String) : CacheFS :=
  fs.filter (fun f => f.path ≠ p)

def fsWrite (fs : CacheFS) (p : String) (mtime : Int) (content : String) : CacheFS :=
  ⟨p, mtime, content⟩ :: fsRemove fs p

/-- `cache_key` (lines 58-61): the namespace argument (called `prefix`
in the source, a reserved word here) followed by `:` and
`hashlib.md5(data.encode()).hexdigest()`. -/
def cache_key (md5hex : String → String) (pfx data : String) : String :=
  pfx ++ ":" ++ md5hex data

/-- `load_from_cache` (lines 64-79).  `os.path.join` is modelled as
concatenation with `"/"`.  Returns the loaded payload (if any) together
with the file system after the self-healing removal of a stale entry. -/
def load_from_cache (fs : CacheFS) (cache_dir key : String) (max_age_hours : Int)
    (now : Int) : Option String × CacheFS :=
  let cache_file := cache_dir ++ "/" ++ key ++ ".json"
  match fsLookup fs cache_file with
  | none => (none, fs)
  | some (mtime, data) =>
    let file_age := now - mtime
    if file_age > max_age_hours * 3600 then (none, fsRemove fs cache_file)
    else (some data, fs)

/-- `save_to_cache` (lines 82-89): unconditional write, mtime = `now`. -/
def save_to_cache (fs : CacheFS) (cache_dir key data : String) (now : Int) : CacheFS :=
  fsWrite fs (cache_dir ++ "/" ++ key ++ ".json") now data

/-! ## Analysis orchestrator (`api_call`, lines 210-234, and the LLM
step of `main`, lines 359-373) -/

/-- The fixed fallback string of lines 232-233. -/
def fallback_response : String :=
  "⚠️ LLM API Error. Performing basic validation check instead.\n\n"
    ++ "Summary of issues based on automated checks above.\n"

/-- `api_call` (lines 210-234).  `response` stands for the outcome of
`client.completion_with_retrieval`: `Except.error e` a raised exception,
`Except.ok ""` a falsy (empty or `None`) response.  A falsy response
raises `ValueError("No response from API")`, and every exception is
caught and converted to the fixed advisory string. -/
def api_call (response : Except String String) : String :=
  match response with
  | Except.error _ => fallback_response
  | Except.ok r => if r = "" then fallback_response else r

/-- LLM-analysis step of `main` (lines 359-373): derive the key from the
first 1000 characters of the text, consult the `api_cache` partition,
short-circuit on a truthy (non-empty) hit, otherwise call the remote
service (via `api_call`) and save the answer — fallback and success
alike — under the same key.  Returns the answer and the file system. -/
def llm_analysis_step (md5hex : String → String) (fs : CacheFS) (cache_dir : String)
    (text : String) (response : Except String String) (now : Int) : String × CacheFS :=
  let api_cache_key := cache_key md5hex "llm" (String.mk (text.data.take 1000))
  let api_dir := cache_dir ++ "/" ++ "api_cache"
  match load_from_cache fs api_dir api_cache_key 24 now with
  | (some cached_answer, fs1) =>
    if cached_answer ≠ "" then (cached_answer, fs1)
    else
      let answer := api_call response
      (answer, save_to_cache fs1 api_dir api_cache_key answer now)
  | (none, fs1) =>
    let answer := api_call response
    (answer, save_to_cache fs1 api_dir api_cache_key answer now)

/-- The on-disk path the LLM step uses for a given text, written with
exactly the association `load_from_cache` produces. -/
def api_cache_path (md5hex : String → String) (cache_dir text : String) : String :=
  cache_dir ++ "/" ++ "api_cache" ++ "/"
    ++ cache_key md5hex "llm" (String.mk (text.data.take 1000)) ++ ".json"

/-! ## Diff text extraction (`main`, lines 326-335)

Python values reachable in this step are modelled by `PyVal`; subscript,
`+`, `.get` and `str()` carry Python's dynamic-typing behavior.  `diff`
is either the list produced by `parse_diff` or — after a diff-cache hit
— the raw `json.dumps` *string* loaded by `load_from_cache` (lines
312-319 store the serialized form and never parse it back). -/

inductive PyVal where
  | none
  | str (s : String)
  | int (n : Int)
  | list (xs : List PyVal)
  | dict (kvs : List (String × PyVal))

/-- Python truthiness of the modelled values. -/
def pyTruthy : PyVal → Bool
  | .none => false
  | .str s => !(s == "")
  | .int n => !(n == 0)
  | .list xs => !xs.isEmpty
  | .dict kvs => !kvs.isEmpty

/-- Python `v[k]` with a string key. -/
def pyGetItemStr : PyVal → String → Except String PyVal
  | .dict kvs, k =>
    match kvs.lookup k with
    | some v => Except.ok v
    | none => Except.error ("KeyError: " ++ k)
  | .str _, _ => Except.error "TypeError: string indices must be integers"
  | _, _ => Except.error "TypeError: object is not subscriptable"

/-- Python `v[i]` with a (non-negative) integer index.  Indexing a string
yields the one-character string at that position. -/
def pyGetItemNat : PyVal → Nat → Except String PyVal
  | .list xs, i =>
    match xs.get? i with
    | some v => Except.ok v
    | none => Except.error "IndexError: list index out of range"
  | .str s, i =>
    match s.data.get? i with
    | some ch => Except.ok (.str (String.mk [ch]))
    | none => Except.error "IndexError: string index out of range"
  | _, _ => Except.error "TypeError: object is not subscriptable"

/-- Python `a + b` on the modelled values. -/
def pyAdd : PyVal → PyVal → Except String PyVal
  | .str a, .str b => Except.ok (.str (a ++ b))
  | .list a, .list b => Except.ok (.list (a ++ b))
  | .int a, .int b => Except.ok (.int (a + b))
  | _, _ => Except.error "TypeError: unsupported operand types for +"

/-- Python `v.get(k, default)`: defined on dicts, an `AttributeError` on
the other reachable values. -/
def pyDictGet : PyVal → String → PyVal → Except String PyVal
  | .dict kvs, k, d =>
    Except.ok (match kvs.lookup k with | some v => v | none => d)
  | _, _, _ => Except.error "AttributeError: object has no attribute get"

mutual
/-- Python `repr` of the modelled values (standard single-quote form;
string-escaping corner cases are not exercised by the theorems below). -/
def pyRepr : PyVal → String
  | .none => "None"
  | .str s => "\x27" ++ s ++ "\x27"
  | .int n => toString n
  | .list xs => "[" ++ pyReprList xs ++ "]"
  | .dict kvs => "\x7b" ++ pyReprKVs kvs ++ "\x7d"

def pyReprList : List PyVal → String
  | [] => ""
  | [x] => pyRepr x
  | x :: r => pyRepr x ++ ", " ++ pyReprList r

def pyReprKVs : List (String × PyVal) → String
  | [] => ""
  | [(k, v)] => "\x27" ++ k ++ "\x27: " ++ pyRepr v
  | (k, v) :: r => "\x27" ++ k ++ "\x27: " ++ pyRepr v ++ ", " ++ pyReprKVs r
end

/-- Python `str()`: identity on strings, `repr`-style on containers. -/
def pyStr : PyVal → String
  | .str s => s
  | v => pyRepr v

/-- Outcome of the text-extraction step of `main`. -/
inductive ExtractOutcome where
  | ok (text : String)    -- execution proceeds with this reviewed text
  | exit1                 -- `sys.exit(1)`: no diff content (line 329)
  | uncaught (err : String)  -- an exception escaped `main`
deriving DecidableEq, Repr

/-- Text extraction of `main` (lines 326-335):

    if not diff or not diff[0]:
        sys.exit(1)
    try:
        text = remove_plus(diff[0]['header'] + diff[0]['body'][0]['body'])
    except Exception as e:
        text = diff[0]['header'] + str(diff[0].get('body', ['']))

`remove_plus` (an external module) is a parameter.  The `except` branch
has no handler of its own, so an exception raised there escapes `main`. -/
def extract_text (remove_plus : String → String) (diff : PyVal) : ExtractOutcome :=
  if !(pyTruthy diff) then .exit1
  else
    match pyGetItemNat diff 0 with
    | Except.error e => .uncaught e
    | Except.ok d0 =>
      if !(pyTruthy d0) then .exit1
      else
        let tryRes : Except String String := do
          let h ← pyGetItemStr d0 "header"
          let b ← pyGetItemStr d0 "body"
          let b0 ← pyGetItemNat b 0
          let bb ← pyGetItemStr b0 "body"
          let s ← pyAdd h bb
          match s with
          | .str str => pure (remove_plus str)
          | _ => Except.error "TypeError: can only concatenate str"
        match tryRes with
        | Except.ok t => .ok t
        | Except.error _ =>
          match (do
            let h ← pyGetItemStr d0 "header"
            let b ← pyDictGet d0 "body" (.list [.str ""])
            pyAdd h (.str (pyStr b)) : Except String PyVal) with
          | Except.ok (.str t) => .ok t
          | Except.ok _ => .uncaught "TypeError: unsupported operand types for +"
          | Except.error e => .uncaught e

/-! ## File-system helper lemmas -/

theorem fsLookup_fsWrite_same (fs : CacheFS) (p : String) (t : Int) (v : String) :
    fsLookup (fsWrite fs p t v) p = some (t, v) := by
  simp [fsLookup, fsWrite, List.find?]

theorem find?_remove_none (fs : CacheFS) (p : String) :
    (fsRemove fs p).find? (fun f => f.path == p) = none := by
  apply List.find?_eq_none.mpr
  intro f hf
  have h := List.of_mem_filter hf
  simp at h
  simpa using h

theorem fsLookup_fsRemove_same (fs : CacheFS) (p : String) :
    fsLookup (fsRemove fs p) p = none := by
  simp [fsLookup, find?_remove_none]

/-! ## Claim theorems -/

/-- Claim C1 (code bug): on an article whose body contains all three
required sections, a fenced code block, a References section and a
figure shortcode, `validate_markdown_structure` should return
`(True, [])` and in particular return normally; instead, reaching the
code-block check raises `NameError` (the module never binds `re`), so
the function raises on this input instead of returning. -/
theorem structure_validator_raises_on_complete_body :
    (containsSub ("---\nx\n---\n## Summary\n## Methodology\n## Conclusion\n```python\nprint(1)\n```\n## References\n\x7b\x7b< figure src=\"g.png\" >\x7d\x7d\n".data.drop 9) "## Summary".data = true
      ∧ containsSub ("---\nx\n---\n## Summary\n## Methodology\n## Conclusion\n```python\nprint(1)\n```\n## References\n\x7b\x7b< figure src=\"g.png\" >\x7d\x7d\n".data.drop 9) "## Methodology".data = true
      ∧ containsSub ("---\nx\n---\n## Summary\n## Methodology\n## Conclusion\n```python\nprint(1)\n```\n## References\n\x7b\x7b< figure src=\"g.png\" >\x7d\x7d\n".data.drop 9) "## Conclusion".data = true
      ∧ containsSub ("---\nx\n---\n## Summary\n## Methodology\n## Conclusion\n```python\nprint(1)\n```\n## References\n\x7b\x7b< figure src=\"g.png\" >\x7d\x7d\n".data.drop 9) "```".data = true
      ∧ containsSub ("---\nx\n---\n## Summary\n## Methodology\n## Conclusion\n```python\nprint(1)\n```\n## References\n\x7b\x7b< figure src=\"g.png\" >\x7d\x7d\n".data.drop 9) "## References".data = true
      ∧ containsSub ("---\nx\n---\n## Summary\n## Methodology\n## Conclusion\n```python\nprint(1)\n```\n## References\n\x7b\x7b< figure src=\"g.png\" >\x7d\x7d\n".data.drop 9) "\x7b\x7b<".data = true
      ∧ containsSub ("---\nx\n---\n## Summary\n## Methodology\n## Conclusion\n```python\nprint(1)\n```\n## References\n\x7b\x7b< figure src=\"g.png\" >\x7d\x7d\n".data.drop 9) ">\x7d\x7d".data = true)
    ∧ validate_markdown_structure
        "---\nx\n---\n## Summary\n## Methodology\n## Conclusion\n```python\nprint(1)\n```\n## References\n\x7b\x7b< figure src=\"g.png\" >\x7d\x7d\n"
      = Except.error nameErrorRe :=
  ⟨by decide, rfl⟩

/-- Claim C2 (code bug): on an article with a closing delimiter whose
body passes the section and figure checks but has no fenced code block
and no References section (exactly two failing checks), the claim
expects an issue list of exactly two elements; instead the function
raises `NameError` at the code-block check and never returns. -/
theorem structure_validator_raises_before_aggregating :
    (containsSub ("---\nx\n---\n## Summary\n## Methodology\n## Conclusion\n\x7b\x7b< figure >\x7d\x7d\n".data.drop 9) "## Summary".data = true
      ∧ containsSub ("---\nx\n---\n## Summary\n## Methodology\n## Conclusion\n\x7b\x7b< figure >\x7d\x7d\n".data.drop 9) "## Methodology".data = true
      ∧ containsSub ("---\nx\n---\n## Summary\n## Methodology\n## Conclusion\n\x7b\x7b< figure >\x7d\x7d\n".data.drop 9) "## Conclusion".data = true
      ∧ containsSub ("---\nx\n---\n## Summary\n## Methodology\n## Conclusion\n\x7b\x7b< figure >\x7d\x7d\n".data.drop 9) "\x7b\x7b<".data = true
      ∧ containsSub ("---\nx\n---\n## Summary\n## Methodology\n## Conclusion\n\x7b\x7b< figure >\x7d\x7d\n".data.drop 9) ">\x7d\x7d".data = true
      ∧ containsSub ("---\nx\n---\n## Summary\n## Methodology\n## Conclusion\n\x7b\x7b< figure >\x7d\x7d\n".data.drop 9) "```".data = false
      ∧ containsSub ("---\nx\n---\n## Summary\n## Methodology\n## Conclusion\n\x7b\x7b< figure >\x7d\x7d\n".data.drop 9) "## References".data = false)
    ∧ validate_markdown_structure
        "---\nx\n---\n## Summary\n## Methodology\n## Conclusion\n\x7b\x7b< figure >\x7d\x7d\n"
      = Except.error nameErrorRe :=
  ⟨by decide, rfl⟩

/-- Claim C3 (code bug): when the diff comes from the diff cache it is
the serialized `json.dumps` string, so `diff[0]` is its first character;
the `try` body raises `TypeError`, and the `except` branch — which the
claim says recovers with a best-effort string — re-evaluates
`diff[0]['header']`, raises the same `TypeError`, and the process
aborts with an uncaught exception instead of continuing. -/
theorem cached_diff_extraction_aborts :
    extract_text id
      (PyVal.str "[\x7b\"header\": \"diff --git a/f b/f\\n\", \"body\": [\x7b\"body\": \"+text\\n\"\x7d]\x7d]")
      = ExtractOutcome.uncaught "TypeError: string indices must be integers" := rfl

/-- Claim C5: saving a value and loading it under the same directory and
key within the max-age window returns exactly the stored value (and
leaves the file system unchanged), while loading an entry whose age
exceeds `max_age_hours` removes the entry's file and returns `none`. -/
theorem cache_roundtrip_and_stale_removal
    (fs : CacheFS) (dir key v : String) (maxAge t1 t2 mt : Int) (c : String) :
    (t2 - t1 ≤ maxAge * 3600 →
      load_from_cache (save_to_cache fs dir key v t1) dir key maxAge t2
        = (some v, save_to_cache fs dir key v t1))
    ∧ (fsLookup fs (dir ++ "/" ++ key ++ ".json") = some (mt, c) →
        t2 - mt > maxAge * 3600 →
        load_from_cache fs dir key maxAge t2
          = (none, fsRemove fs (dir ++ "/" ++ key ++ ".json"))
        ∧ fsLookup (fsRemove fs (dir ++ "/" ++ key ++ ".json"))
            (dir ++ "/" ++ key ++ ".json") = none) := by
  constructor
  · intro hage
    simp only [load_from_cache, save_to_cache, fsLookup_fsWrite_same]
    rw [if_neg (by omega)]
  · intro hlook hage
    refine ⟨?_, fsLookup_fsRemove_same fs _⟩
    simp only [load_from_cache, hlook]
    rw [if_pos (by omega)]

/-- Concrete run of `cache_roundtrip_and_stale_removal`: a fresh write
is read back one window-length later, and the pre-existing stale entry
is purged and reported absent. -/
theorem cache_roundtrip_and_stale_removal_witness :
    (load_from_cache (save_to_cache [⟨"d/k.json", 0, "old"⟩] "d" "k" "v" 1) "d" "k" 24 86401
      = (some "v", save_to_cache [⟨"d/k.json", 0, "old"⟩] "d" "k" "v" 1))
    ∧ (load_from_cache [⟨"d/k.json", 0, "old"⟩] "d" "k" 24 86401
        = (none, fsRemove [⟨"d/k.json", 0, "old"⟩] ("d" ++ "/" ++ "k" ++ ".json"))
      ∧ fsLookup (fsRemove [⟨"d/k.json", 0, "old"⟩] ("d" ++ "/" ++ "k" ++ ".json"))
          ("d" ++ "/" ++ "k" ++ ".json") = none) :=
  ⟨(cache_roundtrip_and_stale_removal [⟨"d/k.json", 0, "old"⟩] "d" "k" "v" 24 1 86401 0 "old").1
      (by decide),
   (cache_roundtrip_and_stale_removal [⟨"d/k.json", 0, "old"⟩] "d" "k" "v" 24 1 86401 0 "old").2
      (by decide) (by decide)⟩

/-- Claim C4: when the remote analysis call raises or returns an
empty/missing response, `api_call` yields the fixed advisory string
containing the `LLM API Error` marker; on a cache miss the orchestrator
stores that fallback under the text-derived key exactly as it would
store a successful response, and a replay within the max-age window
returns the cached fallback without consulting the remote service. -/
theorem api_fallback_cached_and_replayable
    (md5hex : String → String) (fs : CacheFS) (cache_dir text : String)
    (response : Except String String) (e : String) (now : Int)
    (hfail : response = Except.error e ∨ response = Except.ok "")
    (hmiss : fsLookup fs (api_cache_path md5hex cache_dir text) = none) :
    (llm_analysis_step md5hex fs cache_dir text response now).1 = fallback_response
    ∧ containsSub fallback_response.data "LLM API Error".data = true
    ∧ (llm_analysis_step md5hex fs cache_dir text response now).2
        = save_to_cache fs (cache_dir ++ "/" ++ "api_cache")
            (cache_key md5hex "llm" (String.mk (text.data.take 1000))) fallback_response now
    ∧ (∀ r : String, r ≠ "" →
        llm_analysis_step md5hex fs cache_dir text (Except.ok r) now
          = (r, save_to_cache fs (cache_dir ++ "/" ++ "api_cache")
              (cache_key md5hex "llm" (String.mk (text.data.take 1000))) r now))
    ∧ (∀ (t2 : Int) (response2 : Except String String), t2 - now ≤ 24 * 3600 →
        llm_analysis_step md5hex
            (llm_analysis_step md5hex fs cache_dir text response now).2
            cache_dir text response2 t2
          = (fallback_response,
             (llm_analysis_step md5hex fs cache_dir text response now).2)) := by
  simp only [api_cache_path] at hmiss
  have hapi : api_call response = fallback_response := by
    rcases hfail with h | h <;> subst h <;> rfl
  have hstep : llm_analysis_step md5hex fs cache_dir text response now
      = (fallback_response,
         save_to_cache fs (cache_dir ++ "/" ++ "api_cache")
           (cache_key md5hex "llm" (String.mk (text.data.take 1000))) fallback_response now) := by
    simp only [llm_analysis_step, load_from_cache, hmiss, hapi]
  refine ⟨by rw [hstep], by decide, by rw [hstep], ?_, ?_⟩
  · intro r hr
    simp only [llm_analysis_step, load_from_cache, hmiss, api_call]
    rw [if_neg hr]
  · intro t2 response2 ht
    rw [hstep]
    have hcond : ¬ (t2 - now > 24 * 3600) := by omega
    have hne : fallback_response ≠ "" := by decide
    simp only [llm_analysis_step, load_from_cache, save_to_cache, fsLookup_fsWrite_same,
      if_neg hcond, if_pos hne]

/-- Concrete run of `api_fallback_cached_and_replayable`: a raising
remote call on an empty cache yields and caches the advisory string,
and the cached copy is served on a replay inside the window. -/
theorem api_fallback_cached_and_replayable_witness :
    (llm_analysis_step (fun _ => "d0") [] "c" "t" (Except.error "boom") 5).1 = fallback_response
    ∧ llm_analysis_step (fun _ => "d0")
        (llm_analysis_step (fun _ => "d0") [] "c" "t" (Except.error "boom") 5).2
        "c" "t" (Except.ok "fresh") 10
      = (fallback_response, (llm_analysis_step (fun _ => "d0") [] "c" "t" (Except.error "boom") 5).2) :=
  ⟨(api_fallback_cached_and_replayable (fun _ => "d0") [] "c" "t" (Except.error "boom") "boom" 5
      (Or.inl rfl) rfl).1,
   (api_fallback_cached_and_replayable (fun _ => "d0") [] "c" "t" (Except.error "boom") "boom" 5
      (Or.inl rfl) rfl).2.2.2.2 10 (Except.ok "fresh") (by decide)⟩

/-- Claim C10: a cached analysis payload equal to the empty string is
falsy, so the orchestrator treats it as a miss: the remote analysis is
still performed, and its result (success or fallback alike) overwrites
the cached empty string under the same key. -/
theorem empty_cached_payload_treated_as_miss
    (md5hex : String → String) (fs : CacheFS) (cache_dir text : String)
    (response : Except String String) (now mt : Int)
    (hentry : fsLookup fs (api_cache_path md5hex cache_dir text) = some (mt, ""))
    (hfresh : now - mt ≤ 24 * 3600) :
    llm_analysis_step md5hex fs cache_dir text response now
      = (api_call response,
         save_to_cache fs (cache_dir ++ "/" ++ "api_cache")
           (cache_key md5hex "llm" (String.mk (text.data.take 1000))) (api_call response) now)
    ∧ fsLookup (llm_analysis_step md5hex fs cache_dir text response now).2
        (api_cache_path md5hex cache_dir text) = some (now, api_call response) := by
  simp only [api_cache_path] at hentry ⊢
  have hstep : llm_analysis_step md5hex fs cache_dir text response now
      = (api_call response,
         save_to_cache fs (cache_dir ++ "/" ++ "api_cache")
           (cache_key md5hex "llm" (String.mk (text.data.take 1000))) (api_call response) now) := by
    simp only [llm_analysis_step, load_from_cache, hentry]
    rw [if_neg (by omega)]
    simp
  refine ⟨hstep, ?_⟩
  rw [hstep]
  simp only [save_to_cache, fsLookup_fsWrite_same]

/-- Concrete run of `empty_cached_payload_treated_as_miss`: with an
empty string cached under the key, a successful remote response is
computed and overwrites the entry. -/
theorem empty_cached_payload_treated_as_miss_witness :
    llm_analysis_step (fun _ => "d1") [⟨"c/api_cache/llm:d1.json", 0, ""⟩] "c" "t"
        (Except.ok "fresh") 5
      = (api_call (Except.ok "fresh"),
         save_to_cache [⟨"c/api_cache/llm:d1.json", 0, ""⟩] ("c" ++ "/" ++ "api_cache")
           (cache_key (fun _ => "d1") "llm" (String.mk ("t".data.take 1000)))
           (api_call (Except.ok "fresh")) 5) :=
  (empty_cached_payload_treated_as_miss (fun _ => "d1") [⟨"c/api_cache/llm:d1.json", 0, ""⟩]
    "c" "t" (Except.ok "fresh") 5 0 (by decide) (by decide)).1

/-- Claim C6: a well-formed article — starting with the front-matter
delimiter, with a closing delimiter at `m`, whose front-matter contains
the `date`, `entities` and `title` field names (no required field
missing), whose date is written after its key in YYYY-MM-DD form, whose
entities slice parses as YAML, and whose title capture strips to at
least 10 characters — passes header validation with the success
message. -/
theorem headers_valid_on_wellformed
    (setOrder : List String → List String) (yamlLoad : String → Except String Unit)
    (content : String) (m : Nat)
    (h0 : "---".data.isPrefixOf content.data = true)
    (h1 : pyFindFrom content.data "---".data 3 = some m)
    (h2 : missing_of ((content.data.take m).drop 3) = [])
    (h3 : dateSearch ((content.data.take m).drop 3) = true)
    (h4 : entitiesPresent ((content.data.take m).drop 3) = true)
    (h5 : validate_entities_section yamlLoad ((content.data.take m).drop 3) = Except.ok ())
    (h6 : ∃ cap, title_capture ((content.data.take m).drop 3) = some cap
          ∧ 10 ≤ (pyStrip cap).length) :
    validate_headers setOrder yamlLoad content = (true, "Headers validated successfully") := by
  obtain ⟨cap, hcap, hlen⟩ := h6
  have hne : ¬ (pyStrip cap = [] ∨ (pyStrip cap).length < 10) := by
    rintro (h | h)
    · rw [h] at hlen
      simp at hlen
    · omega
  simp [validate_headers, h0, h1, h2, h3, h4, h5, hcap, hne]

/-- Concrete run of `headers_valid_on_wellformed` on an article with all
required fields, a plain YYYY-MM-DD date, parseable entities and a
25-character title. -/
theorem headers_valid_on_wellformed_witness :
    validate_headers (fun l => l) (fun _ => Except.ok ())
        "---\ntitle: A sufficiently long title\ndate: 2025-01-01\nentities: [a]\n---\nbody"
      = (true, "Headers validated successfully") :=
  headers_valid_on_wellformed (fun l => l) (fun _ => Except.ok ())
    "---\ntitle: A sufficiently long title\ndate: 2025-01-01\nentities: [a]\n---\nbody" 68
    (by decide) (by decide) (by decide) (by decide) (by decide) rfl
    ⟨"A sufficiently long title".data, by decide, by decide⟩

/-- Claim C7 counterexample: the missing fields are joined in CPython's
set-iteration order, which is hash-seed dependent — modelled by the
`setOrder` parameter, constrained only to permute the missing set.  Two
legitimate orders (identity and reversal, both permutations) yield
different messages for the same article missing `date` and `entities`,
so the message order is not fixed. -/
theorem missing_fields_order_not_fixed :
    (∀ l : List String, (List.reverse l).Perm l)
    ∧ validate_headers (fun l => l) (fun _ => Except.ok ()) "---\ntitle: whatever here\n---\nbody"
      ≠ validate_headers List.reverse (fun _ => Except.ok ()) "---\ntitle: whatever here\n---\nbody" :=
  ⟨fun l => List.reverse_perm l, by decide⟩

/-- Claim C7 amended: when required front-matter fields are missing, the
validator fails with a message listing exactly the missing fields joined
by a comma, in a run-dependent order that is always a permutation of the
missing set (Python set iteration); in particular, an article missing
only `entities` is reported with exactly `entities`, in every run. -/
theorem missing_fields_reported
    (setOrder : List String → List String) (yamlLoad : String → Except String Unit)
    (content : String) (m : Nat)
    (hperm : ∀ l : List String, (setOrder l).Perm l)
    (h0 : "---".data.isPrefixOf content.data = true)
    (h1 : pyFindFrom content.data "---".data 3 = some m)
    (hmiss : missing_of ((content.data.take m).drop 3) ≠ []) :
    (∃ l : List String, l.Perm (missing_of ((content.data.take m).drop 3))
      ∧ validate_headers setOrder yamlLoad content
        = (false, "Missing required YAML headers: " ++ joinCS l))
    ∧ (missing_of ((content.data.take m).drop 3) = ["entities"] →
        validate_headers setOrder yamlLoad content
          = (false, "Missing required YAML headers: entities")) := by
  have hmain : validate_headers setOrder yamlLoad content
      = (false, "Missing required YAML headers: "
          ++ joinCS (setOrder (missing_of ((content.data.take m).drop 3)))) := by
    simp [validate_headers, h0, h1, hmiss]
  constructor
  · exact ⟨setOrder (missing_of ((content.data.take m).drop 3)),
      hperm (missing_of ((content.data.take m).drop 3)), hmain⟩
  · intro hone
    rw [hmain, hone, List.perm_singleton.mp (hperm ["entities"])]
    rfl

/-- Concrete run of `missing_fields_reported`: front-matter with `date`
and `title` but no `entities` is rejected listing exactly `entities`,
for the identity iteration order. -/
theorem missing_fields_reported_witness :
    validate_headers (fun l => l) (fun _ => Except.ok ())
        "---\ndate: 2025-01-01\ntitle: a fine long title\n---\n"
      = (false, "Missing required YAML headers: entities") :=
  (missing_fields_reported (fun l => l) (fun _ => Except.ok ())
      "---\ndate: 2025-01-01\ntitle: a fine long title\n---\n" 46
      (fun l => List.Perm.refl l) (by decide) (by decide) (by decide)).2 (by decide)

/-- Claim C8 counterexample: the title regex consumes the opening quote
but its greedy capture keeps the closing quote, so the double-quoted
9-character title strips to the 10-character `123456789"` and the
article is accepted — although the quote-stripped title has 9 < 10
characters and the claim requires rejection regardless of quotes. -/
theorem quoted_short_title_accepted :
    (("123456789" : String).length < 10
      ∧ title_capture "\ntitle: \"123456789\"\ndate: 2025-01-01\nentities: [a]\n".data
        = some "123456789\"".data)
    ∧ validate_headers (fun l => l) (fun _ => Except.ok ())
        "---\ntitle: \"123456789\"\ndate: 2025-01-01\nentities: [a]\n---\n"
      = (true, "Headers validated successfully") :=
  ⟨⟨by decide, by decide⟩, by decide⟩

/-- Claim C8 amended: the title check extracts the value after the key
up to end of line, the regex consuming an optional opening quote while a
closing quote stays inside the greedy capture; the capture is trimmed of
whitespace (not of quotes) and accepted iff its length is at least 10.
Whenever the trimmed capture is shorter than 10 characters the article
is rejected with the got-length message. -/
theorem short_title_capture_rejected
    (setOrder : List String → List String) (yamlLoad : String → Except String Unit)
    (content : String) (m : Nat) (cap : List Char)
    (h0 : "---".data.isPrefixOf content.data = true)
    (h1 : pyFindFrom content.data "---".data 3 = some m)
    (h2 : missing_of ((content.data.take m).drop 3) = [])
    (h3 : dateSearch ((content.data.take m).drop 3) = true)
    (h4 : entitiesPresent ((content.data.take m).drop 3) = true)
    (h5 : validate_entities_section yamlLoad ((content.data.take m).drop 3) = Except.ok ())
    (hcap : title_capture ((content.data.take m).drop 3) = some cap)
    (hshort : (pyStrip cap).length < 10) :
    validate_headers setOrder yamlLoad content
      = (false, "\x27title\x27 header must be at least 10 characters (got: "
          ++ toString (pyStrip cap).length ++ ")") := by
  have hc : pyStrip cap = [] ∨ (pyStrip cap).length < 10 := Or.inr hshort
  simp [validate_headers, h0, h1, h2, h3, h4, h5, hcap, hc]

/-- Concrete run of `short_title_capture_rejected`: the unquoted
5-character title `short` is rejected with the got-length message. -/
theorem short_title_capture_rejected_witness :
    validate_headers (fun l => l) (fun _ => Except.ok ())
        "---\ntitle: short\ndate: 2025-01-01\nentities: [a]\n---\n"
      = (false, "\x27title\x27 header must be at least 10 characters (got: "
          ++ toString (pyStrip "short".data).length ++ ")") :=
  short_title_capture_rejected (fun l => l) (fun _ => Except.ok ())
    "---\ntitle: short\ndate: 2025-01-01\nentities: [a]\n---\n" 48 "short".data
    (by decide) (by decide) (by decide) (by decide) (by decide) rfl (by decide) (by decide)

/-- Claim C9: the embedding of `validate_headers` is total by
construction (it always returns a `Bool × String` pair), and the
`ValueError` raised for malformed entities YAML — the only exception the
body can raise — is caught by the enclosing handler and converted into a
valid=false result carrying the error message. -/
theorem yaml_error_reported_not_raised
    (setOrder : List String → List String) (yamlLoad : String → Except String Unit)
    (content : String) (m : Nat) (e : String)
    (h0 : "---".data.isPrefixOf content.data = true)
    (h1 : pyFindFrom content.data "---".data 3 = some m)
    (h2 : missing_of ((content.data.take m).drop 3) = [])
    (h3 : dateSearch ((content.data.take m).drop 3) = true)
    (h4 : entitiesPresent ((content.data.take m).drop 3) = true)
    (h5 : validate_entities_section yamlLoad ((content.data.take m).drop 3) = Except.error e) :
    validate_headers setOrder yamlLoad content = (false, "Error validating headers: " ++ e) := by
  simp [validate_headers, h0, h1, h2, h3, h4, h5]

/-- Concrete run of `yaml_error_reported_not_raised`: a yaml parser that
rejects the entities slice makes header validation fail with the
converted message instead of raising. -/
theorem yaml_error_reported_not_raised_witness :
    validate_headers (fun l => l) (fun _ => Except.error "bad")
        "---\ntitle: A sufficiently long title\ndate: 2025-01-01\nentities: [a]\n---\nbody"
      = (false, "Error validating headers: " ++ "Invalid YAML in entities section: bad") :=
  yaml_error_reported_not_raised (fun l => l) (fun _ => Except.error "bad")
    "---\ntitle: A sufficiently long title\ndate: 2025-01-01\nentities: [a]\n---\nbody" 68
    "Invalid YAML in entities section: bad"
    (by decide) (by decide) (by decide) (by decide) (by decide) rfl

end ArticleChecker
